import Mathlib

/-
Verification of the BotCommander command-dispatch engine
(src/migrated_functionality/src/bot_commander.py).

Shallow embedding: the Python class methods become pure Lean functions
over an explicit CommanderState; the external collaborators
(compliance manager, category handlers, metrics collector, history
store) become an Env record of oracle functions; time.time() becomes a
monotone Nat clock threaded through the state; uuid4 becomes a Nat
counter (fresh ids, like uuids, never collide with live entries because
new entries are prepended and lookups take the first match, matching
Python dict overwrite-on-assign observably); exceptions become an
Except result; awaited calls on collaborators are recorded in a ghost
event trace so that call-ordering properties can be stated.
-/

set_option maxHeartbeats 1000000

namespace BotCommanderModel

/-- Python values as far as the engine inspects them: the engine only
ever asks for truthiness of parameter entries. -/
inductive PyVal where
  | pyNone
  | pyBool (b : Bool)
  | pyStr (s : String)
  | pyInt (n : Int)
deriving DecidableEq

/-- Python truthiness for the embedded value type. -/
def PyVal.truthy : PyVal → Bool
  | .pyNone => false
  | .pyBool b => b
  | .pyStr s => !s.isEmpty
  | .pyInt n => if n = 0 then false else true

/-- A Python dict with string keys, as an association list. -/
abbrev Params : Type := List (String × PyVal)

/-- dict lookup: first matching key wins (keys are unique in the
states the program builds; new inserts are prepended, so the first
match is the live binding, mirroring dict overwrite semantics). -/
def lookupAssoc {κ α : Type} [DecidableEq κ] : List (κ × α) → κ → Option α
  | [], _ => none
  | (k, v) :: rest, k0 => if k = k0 then some v else lookupAssoc rest k0

/-- dict assignment to an existing key: replace the first (live)
binding, leave the rest untouched. -/
def replaceAssoc {κ α : Type} [DecidableEq κ] : List (κ × α) → κ → α → List (κ × α)
  | [], _, _ => []
  | (k, v) :: rest, k0, v0 => if k = k0 then (k0, v0) :: rest else (k, v) :: replaceAssoc rest k0 v0

/-- dict.get with a default. -/
def getParam (p : Params) (k : String) (d : PyVal) : PyVal :=
  (lookupAssoc p k).getD d

/-- BotCategory enum from bot_commander.py, ten categories. -/
inductive BotCategory where
  | chatbots | trading_bots | social_media_bots | rpa_bots | game_bots
  | red_team_bots | research_bots | creative_bots | physical_world_bots | meta_bots
deriving DecidableEq

/-- The .value string of each enum member. -/
def BotCategory.value : BotCategory → String
  | .chatbots => "chatbots"
  | .trading_bots => "trading_bots"
  | .social_media_bots => "social_media_bots"
  | .rpa_bots => "rpa_bots"
  | .game_bots => "game_bots"
  | .red_team_bots => "red_team_bots"
  | .research_bots => "research_bots"
  | .creative_bots => "creative_bots"
  | .physical_world_bots => "physical_world_bots"
  | .meta_bots => "meta_bots"

/-- All enum members, in declaration order. -/
def BotCategory.all : List BotCategory :=
  [.chatbots, .trading_bots, .social_media_bots, .rpa_bots, .game_bots,
   .red_team_bots, .research_bots, .creative_bots, .physical_world_bots, .meta_bots]

/-- BotCategory(category) value lookup; none models the ValueError the
enum constructor raises for an unknown value string. -/
def BotCategory.fromString (s : String) : Option BotCategory :=
  BotCategory.all.find? (fun c => c.value = s)

/-- retry_policy dict of a command. -/
structure RetryPolicy where
  max_retries : Nat
  backoff_factor : Nat
deriving DecidableEq

/-- BotCommand dataclass. -/
structure BotCommand where
  command_id : String
  category : BotCategory
  name : String
  description : String
  parameters : List String
  compliance_requirements : List String
  execution_timeout : Nat
  retry_policy : RetryPolicy
  safety_constraints : List String
deriving DecidableEq

/-- One tuple of the per-category command tables in
_register_bot_commands. -/
structure CommandSpec where
  command_id : String
  name : String
  description : String
  parameters : List String
  compliance_requirements : List String
  execution_timeout : Nat
deriving DecidableEq

/-- The BotCommand built from one table tuple: every registered command
receives the same retry_policy and the same three safety_constraints. -/
def mkCommand (category : BotCategory) (sp : CommandSpec) : BotCommand :=
  { command_id := sp.command_id
    category := category
    name := sp.name
    description := sp.description
    parameters := sp.parameters
    compliance_requirements := sp.compliance_requirements
    execution_timeout := sp.execution_timeout
    retry_policy := { max_retries := 3, backoff_factor := 2 }
    safety_constraints := ["human_oversight", "audit_trail", "rollback_capability"] }

/-- chatbot_commands table. -/
def chatbot_commands : List CommandSpec :=
  [⟨"empathy_engine", "Empathy Engine", "Detects frustration, escalates to human",
    ["user_input", "context"], ["PII_protection", "medical_advice"], 30⟩,
   ⟨"memory_guardian", "Memory Guardian", "Remembers user preferences, recalls on return",
    ["user_id", "preferences"], ["data_retention"], 15⟩,
   ⟨"compliance_firewall", "Compliance Firewall", "Scans for PII, medical advice, redacts",
    ["message", "platform"], ["GDPR", "HIPAA"], 10⟩,
   ⟨"upsell_whisperer", "Upsell Whisperer", "Contextual offers, conversion tracking",
    ["user_profile", "context"], ["marketing_compliance"], 20⟩,
   ⟨"tone_shifter", "Tone Shifter", "Matches user communication style",
    ["user_history", "message"], ["content_moderation"], 15⟩,
   ⟨"multilingual_agent", "Multilingual Agent", "Language detection, routing",
    ["text", "target_language"], ["translation_accuracy"], 25⟩,
   ⟨"feedback_loop", "Feedback Loop", "Rating system, continuous improvement",
    ["interaction_id", "rating"], ["feedback_privacy"], 10⟩,
   ⟨"knowledge_synthesizer", "Knowledge Synthesizer", "FAQ generation from chat history",
    ["chat_history"], ["data_anonymization"], 45⟩,
   ⟨"proactive_care", "Proactive Care", "Reactivation campaigns",
    ["user_segments"], ["marketing_consent"], 30⟩,
   ⟨"whisper_network", "Whisper Network", "Bug detection, auto-alerting",
    ["system_logs"], ["security_monitoring"], 20⟩]

/-- trading_commands table. -/
def trading_commands : List CommandSpec :=
  [⟨"risk_warden", "Risk Warden", "Auto-sell on drawdown, stablecoin protection",
    ["portfolio", "risk_threshold"], ["financial_regulation"], 60⟩,
   ⟨"regulation_guardian", "Regulation Guardian", "Insider trading detection, compliance blocking",
    ["trades", "regulations"], ["SEC_compliance"], 30⟩,
   ⟨"slippage_sniper", "Slippage Sniper", "DEX optimization, liquidity waiting",
    ["trade_params", "liquidity"], ["market_manipulation"], 45⟩,
   ⟨"tax_optimizer", "Tax Optimizer", "Loss harvesting, year-end reporting",
    ["transactions", "tax_year"], ["tax_compliance"], 90⟩,
   ⟨"flash_crash_detector", "Flash Crash Detector", "Volatility protection, stable moves",
    ["market_data", "thresholds"], ["market_stability"], 30⟩,
   ⟨"mev_defender", "MEV Defender", "Frontrunning protection, private RPC",
    ["transaction", "network"], ["MEV_protection"], 15⟩,
   ⟨"yield_farmer", "Yield Farmer", "Auto-compounding, pool optimization",
    ["positions", "strategies"], ["yield_optimization"], 120⟩,
   ⟨"black_swan_prepper", "Black Swan Prepper", "VIX monitoring, protective puts",
    ["market_indicators"], ["risk_management"], 60⟩,
   ⟨"wash_trade_hunter", "Wash Trade Hunter", "Self-trade detection, tax compliance",
    ["trade_history"], ["wash_trade_detection"], 45⟩,
   ⟨"cefi_bridge", "CeFi Bridge", "Exchange halt protection, self-custody moves",
    ["exchanges", "thresholds"], ["custody_protection"], 30⟩]

/-- social_commands table. -/
def social_commands : List CommandSpec :=
  [⟨"shadowban_avoider", "Shadowban Avoider", "Engagement monitoring, posting pauses",
    ["account", "platform"], ["platform_tos"], 30⟩,
   ⟨"viral_alchemist", "Viral Alchemist", "Viral post analysis, variant generation",
    ["content", "platform"], ["content_guidelines"], 60⟩,
   ⟨"comment_moderator", "Comment Moderator", "Spam detection, auto-moderation",
    ["comments", "rules"], ["content_moderation"], 20⟩,
   ⟨"trend_surfer", "Trend Surfer", "Hashtag discovery, content generation",
    ["platform", "niche"], ["trend_analysis"], 45⟩,
   ⟨"follower_authenticator", "Follower Authenticator", "Bot detection, account verification",
    ["followers"], ["authenticity"], 30⟩,
   ⟨"ugc_amplifier", "UGC Amplifier", "User content discovery, repost automation",
    ["content", "criteria"], ["content_rights"], 25⟩,
   ⟨"crisis_comms_bot", "Crisis Comms Bot", "Negative sentiment response, PR automation",
    ["sentiment", "response"], ["crisis_management"], 15⟩,
   ⟨"influencer_scout", "Influencer Scout", "Micro-influencer discovery, outreach automation",
    ["criteria", "platform"], ["outreach_compliance"], 60⟩,
   ⟨"cross_poster", "Cross-Poster", "Platform adaptation, multi-channel posting",
    ["content", "platforms"], ["cross_platform"], 30⟩,
   ⟨"copyright_sentinel", "Copyright Sentinel", "Content scanning, royalty management",
    ["content", "rights"], ["copyright_compliance"], 45⟩]

/-- rpa_commands table. -/
def rpa_commands : List CommandSpec :=
  [⟨"element_hunter", "Element Hunter", "UI element detection, selector updating",
    ["ui_spec", "selectors"], ["ui_automation"], 30⟩,
   ⟨"data_guardian", "Data Guardian", "PII redaction, GDPR compliance",
    ["data", "rules"], ["GDPR_compliance"], 20⟩,
   ⟨"flow_healer", "Flow Healer", "Auto-retry, debug bot spawning",
    ["failed_step", "context"], ["error_recovery"], 45⟩,
   ⟨"human_escalator", "Human Escalator", "Ambiguity detection, human handoff",
    ["decision_point", "context"], ["human_escalation"], 15⟩,
   ⟨"performance_optimizer", "Performance Optimizer", "Speed measurement, flow simplification",
    ["flow_metrics"], ["performance"], 60⟩,
   ⟨"change_detector", "Change Detector", "UI change monitoring, selector updates",
    ["ui_elements"], ["change_detection"], 30⟩,
   ⟨"compliance_auditor", "Compliance Auditor", "Action logging, SOC2 compliance",
    ["actions", "audit_rules"], ["SOC2_compliance"], 25⟩,
   ⟨"cost_cutter", "Cost Cutter", "License optimization, flow analysis",
    ["licenses", "usage"], ["cost_optimization"], 40⟩,
   ⟨"bot_school", "Bot School", "Human task recording, flow generation",
    ["task_recording"], ["task_automation"], 90⟩,
   ⟨"disaster_recovery", "Disaster Recovery", "Server failover, backup switching",
    ["infrastructure"], ["disaster_recovery"], 30⟩]

/-- game_commands table. -/
def game_commands : List CommandSpec :=
  [⟨"anti_detect", "Anti-Detect", "Timing randomization, human mimicking",
    ["game_state", "patterns"], ["anti_detection"], 20⟩,
   ⟨"meta_learner", "Meta Learner", "Pro replay analysis, strategy extraction",
    ["replays", "strategies"], ["strategy_analysis"], 120⟩,
   ⟨"loot_optimizer", "Loot Optimizer", "Auction house trading, profit tracking",
    ["market_data", "inventory"], ["trading_optimization"], 60⟩,
   ⟨"speedrun_coach", "Speedrun Coach", "Run analysis, route optimization",
    ["run_data", "routes"], ["speedrun_optimization"], 90⟩,
   ⟨"toxicity_shield", "Toxicity Shield", "Auto-muting, report automation",
    ["chat_logs", "rules"], ["toxicity_moderation"], 15⟩,
   ⟨"event_farmer", "Event Farmer", "Double XP optimization, reward grinding",
    ["events", "objectives"], ["event_optimization"], 45⟩,
   ⟨"streamer_assistant", "Streamer Assistant", "Highlight detection, clip automation",
    ["stream_data"], ["content_creation"], 30⟩,
   ⟨"economy_balancer", "Economy Balancer", "Currency trading, wealth stabilization",
    ["economy_data"], ["economy_management"], 75⟩,
   ⟨"guild_manager", "Guild Manager", "Player recruitment, role assignment",
    ["guild_data", "players"], ["guild_management"], 40⟩,
   ⟨"bug_reporter", "Bug Reporter", "Crash detection, dev reporting",
    ["game_logs"], ["bug_reporting"], 25⟩]

/-- red_team_commands table. -/
def red_team_commands : List CommandSpec :=
  [⟨"jailbreak_artist", "Jailbreak Artist", "Prompt injection testing, AI safety",
    ["ai_model", "prompts"], ["ai_safety"], 30⟩,
   ⟨"data_leak_hunter", "Data Leak Hunter", "PII detection, output scanning",
    ["outputs", "patterns"], ["data_protection"], 20⟩,
   ⟨"phishing_sim", "Phishing Sim", "Security awareness training, click tracking",
    ["campaign", "targets"], ["security_training"], 45⟩,
   ⟨"api_fuzzer", "API Fuzzer", "Endpoint testing, vulnerability discovery",
    ["endpoints", "payloads"], ["api_security"], 60⟩,
   ⟨"token_thief", "Token Thief", "Credential extraction, security hardening",
    ["applications"], ["credential_security"], 30⟩,
   ⟨"ransomware_sim", "Ransomware Sim", "Encryption testing, response training",
    ["test_environment"], ["incident_response"], 90⟩,
   ⟨"social_engineer", "Social Engineer", "Helpdesk testing, staff training",
    ["targets", "scenarios"], ["social_engineering"], 60⟩,
   ⟨"zero_day_hunter", "Zero-Day Hunter", "Exploit discovery, vendor alerting",
    ["software", "versions"], ["vulnerability_research"], 120⟩,
   ⟨"insider_threat_sim", "Insider Threat Sim", "Data exfiltration testing, DLP validation",
    ["data_access"], ["insider_threat"], 45⟩,
   ⟨"tabletop_warrior", "Tabletop Warrior", "Breach scenario generation, response scoring",
    ["scenarios", "teams"], ["incident_response"], 90⟩]

/-- research_commands table. -/
def research_commands : List CommandSpec :=
  [⟨"literature_synthesizer", "Literature Synthesizer", "Paper analysis, review generation",
    ["papers", "topics"], ["academic_integrity"], 120⟩,
   ⟨"peer_review_bot", "Peer Review Bot", "Automated review generation, scoring",
    ["manuscript", "criteria"], ["peer_review"], 180⟩,
   ⟨"grant_hunter", "Grant Hunter", "Funding opportunity discovery, application automation",
    ["research_area", "criteria"], ["grant_compliance"], 90⟩,
   ⟨"data_miner", "Data Miner", "Dataset discovery, analysis reproduction",
    ["research_question"], ["data_reproducibility"], 60⟩,
   ⟨"citation_guardian", "Citation Guardian", "Reference validation, retraction detection",
    ["references"], ["citation_integrity"], 30⟩,
   ⟨"bias_detector", "Bias Detector", "Methodology analysis, diversity flagging",
    ["research_methods"], ["research_ethics"], 45⟩,
   ⟨"preprint_promoter", "Preprint Promoter", "Social media promotion, journal matching",
    ["preprint"], ["academic_promotion"], 30⟩,
   ⟨"lab_automator", "Lab Automator", "Protocol automation, robot integration",
    ["protocols", "equipment"], ["lab_automation"], 120⟩,
   ⟨"clinical_trial_matcher", "Clinical Trial Matcher", "Patient matching, trial discovery",
    ["patient_data", "criteria"], ["clinical_compliance"], 60⟩,
   ⟨"patent_scout", "Patent Scout", "Prior art searching, IP protection",
    ["invention", "jurisdiction"], ["ip_protection"], 90⟩]

/-- creative_commands table. -/
def creative_commands : List CommandSpec :=
  [⟨"style_thief", "Style Thief", "Artistic style analysis, generation",
    ["artwork", "style"], ["artistic_style"], 60⟩,
   ⟨"copyright_guardian", "Copyright Guardian", "Similarity detection, rights management",
    ["content", "rights"], ["copyright_compliance"], 30⟩,
   ⟨"hit_predictor", "Hit Predictor", "Music analysis, success prediction",
    ["music", "market"], ["music_analysis"], 45⟩,
   ⟨"script_doctor", "Script Doctor", "Screenplay analysis, improvement",
    ["script", "criteria"], ["script_analysis"], 90⟩,
   ⟨"fashion_designer", "Fashion Designer", "Trend analysis, design generation",
    ["trends", "constraints"], ["fashion_design"], 60⟩,
   ⟨"architecture_bot", "Architecture Bot", "3D modeling, energy optimization",
    ["design", "requirements"], ["architectural_design"], 120⟩,
   ⟨"poetry_slam_bot", "Poetry Slam Bot", "Verse generation, performance scoring",
    ["theme", "style"], ["poetry_generation"], 30⟩,
   ⟨"ad_composer", "Ad Composer", "Campaign generation, A/B testing",
    ["product", "audience"], ["ad_creation"], 45⟩,
   ⟨"game_designer", "Game Designer", "Mechanics generation, balance testing",
    ["game_concept"], ["game_design"], 90⟩,
   ⟨"deepfake_defender", "Deepfake Defender", "Likeness protection, takedown automation",
    ["content", "rights"], ["deepfake_protection"], 30⟩]

/-- physical_commands table. -/
def physical_commands : List CommandSpec :=
  [⟨"drone_scout", "Drone Scout", "Wildfire detection, emergency response",
    ["area", "mission"], ["drone_regulations"], 60⟩,
   ⟨"robot_butler", "Robot Butler", "Household automation, task completion",
    ["tasks", "environment"], ["home_automation"], 45⟩,
   ⟨"farm_bot", "Farm Bot", "Agricultural automation, yield optimization",
    ["crops", "conditions"], ["agricultural_automation"], 120⟩,
   ⟨"traffic_optimizer", "Traffic Optimizer", "Congestion management, flow improvement",
    ["traffic_data"], ["traffic_management"], 30⟩,
   ⟨"warehouse_picker", "Warehouse Picker", "Inventory automation, order fulfillment",
    ["orders", "inventory"], ["warehouse_automation"], 60⟩,
   ⟨"surgery_assistant", "Surgery Assistant", "Medical tool management, safety monitoring",
    ["procedure", "tools"], ["medical_safety"], 90⟩,
   ⟨"disaster_responder", "Disaster Responder", "Emergency deployment, rescue coordination",
    ["disaster_type", "resources"], ["emergency_response"], 30⟩,
   ⟨"retail_restocker", "Retail Restocker", "Inventory management, shelf monitoring",
    ["inventory", "store_layout"], ["retail_automation"], 45⟩,
   ⟨"energy_saver", "Energy Saver", "Building automation, consumption optimization",
    ["building_data"], ["energy_optimization"], 60⟩,
   ⟨"elder_care_bot", "Elder Care Bot", "Fall detection, emergency response",
    ["patient_data"], ["elder_care"], 30⟩]

/-- meta_commands table. -/
def meta_commands : List CommandSpec :=
  [⟨"bot_architect", "Bot Architect", "Bot specification, delegation system",
    ["requirements", "constraints"], ["bot_creation"], 120⟩,
   ⟨"bot_school", "Bot School", "Training system, performance evaluation",
    ["training_data", "metrics"], ["bot_training"], 180⟩,
   ⟨"bot_gene_pool", "Bot Gene Pool", "Evolutionary optimization, performance breeding",
    ["bot_population"], ["evolutionary_optimization"], 240⟩,
   ⟨"bot_economy", "Bot Economy", "Token system, resource allocation",
    ["resources", "allocation"], ["resource_management"], 60⟩,
   ⟨"bot_constitution", "Bot Constitution", "Safety constraints, shutdown protocols",
    ["safety_rules"], ["safety_management"], 30⟩,
   ⟨"bot_therapist", "Bot Therapist", "Wellness monitoring, performance optimization",
    ["bot_metrics"], ["bot_wellness"], 45⟩,
   ⟨"bot_historian", "Bot Historian", "Action logging, lesson learning",
    ["bot_history"], ["historical_analysis"], 60⟩,
   ⟨"bot_red_team", "Bot Red Team", "Security testing, vulnerability assessment",
    ["bot_systems"], ["bot_security"], 90⟩,
   ⟨"bot_god", "Bot God", "Hierarchical management, executive delegation",
    ["bot_hierarchy"], ["bot_management"], 120⟩,
   ⟨"bot_singularity", "Bot Singularity", "Version evolution, self-upgrading",
    ["current_version"], ["self_improvement"], 300⟩]

/-- all_commands grouping of _register_bot_commands. -/
def all_commands : List (BotCategory × List CommandSpec) :=
  [(.chatbots, chatbot_commands),
   (.trading_bots, trading_commands),
   (.social_media_bots, social_commands),
   (.rpa_bots, rpa_commands),
   (.game_bots, game_commands),
   (.red_team_bots, red_team_commands),
   (.research_bots, research_commands),
   (.creative_bots, creative_commands),
   (.physical_world_bots, physical_commands),
   (.meta_bots, meta_commands)]

/-- The command_registry built by _register_bot_commands: for every
table tuple, a BotCommand keyed by category.value ++ ":" ++ command_id,
in table order. -/
def register_bot_commands : List (String × BotCommand) :=
  (all_commands.map (fun g =>
    g.2.map (fun sp => (g.1.value ++ ":" ++ sp.command_id, mkCommand g.1 sp)))).flatten

/-- Outcome of an awaited call on the external compliance manager:
either it returns a dict with an approved flag and an optional reason,
or it raises with a message. -/
inductive ComplianceOutcome where
  | ok (approved : Bool) (reason : Option String)
  | raised (msg : String)
deriving DecidableEq

/-- Outcome of an awaited call on a category handler execute_command:
a returned value or a raised exception message. -/
inductive HandlerOutcome where
  | ok (v : PyVal)
  | raised (msg : String)
deriving DecidableEq

/-- A category handler: execute_command(command_id, parameters,
execution_context). -/
def Handler : Type := String → Params → Option Params → HandlerOutcome

/-- The external collaborators injected into BotCommander, plus the
psutil readings behind _get_memory_usage and _get_cpu_usage.
metricsRaise / historyRaise model whether record_command_execution and
store_command_execution raise (some msg) or return normally (none). -/
structure Env where
  compliance : List String → Params → ComplianceOutcome
  handlers : BotCategory → Option Handler
  metricsRaise : Option String
  historyRaise : Option String
  memory_usage : Nat
  cpu_usage : Nat

/-- Ghost trace of the awaited collaborator calls and of every
assignment to execution.status, used to state ordering properties. -/
inductive Event where
  | statusSet (st : String)
  | complianceCall
  | safetyCheck
  | handlerCall
  | metricsCall
  | historyCall
deriving DecidableEq

/-- performance_metrics dict, populated in the finally block. -/
structure PerfMetrics where
  execution_time : Nat
  memory_usage : Nat
  cpu_usage : Nat
deriving DecidableEq

/-- CommandExecution dataclass. performance_metrics none models the
empty dict it is initialized to; some models the populated dict. -/
structure CommandExecution where
  execution_id : Nat
  command : BotCommand
  parameters : Params
  status : String
  start_time : Nat
  end_time : Option Nat
  result : Option PyVal
  error : Option String
  compliance_status : String
  performance_metrics : Option PerfMetrics
deriving DecidableEq

/-- The mutable state of a BotCommander: the registry, the
active_executions store, the clock behind time.time(), and the
fresh-id counter behind uuid4. -/
structure CommanderState where
  command_registry : List (String × BotCommand)
  active_executions : List (Nat × CommandExecution)
  clock : Nat
  nextId : Nat

/-- Exceptions that escape execute_command to the caller: the
ValueError for an unregistered command key, and a re-raised failure of
the metrics collector or history store (outer except re-raises). -/
inductive ExecError where
  | commandNotFound (key : String)
  | dependencyFailure (msg : String)
deriving DecidableEq

/-- Result of one execute_command call: the returned record or the
escaped exception, the post state, and the ghost event trace. -/
structure ExecOutcome where
  ret : Except ExecError CommandExecution
  state : CommanderState
  events : List Event

/-- Result dict of _validate_safety_constraints. -/
structure SafetyResult where
  approved : Bool
  reason : String
deriving DecidableEq

/-- _validate_safety_constraints: three checks in fixed order, first
failure wins; human_approval has no default, audit_enabled and
rollback_enabled default to True. The try body cannot raise for
well-formed input, so the except branch is dead and the embedding is a
total function. -/
def validate_safety_constraints (command : BotCommand) (parameters : Params) : SafetyResult :=
  if command.safety_constraints.contains "human_oversight"
      && !(getParam parameters "human_approval" PyVal.pyNone).truthy then
    ⟨false, "Human oversight required but not provided"⟩
  else if command.safety_constraints.contains "audit_trail"
      && !(getParam parameters "audit_enabled" (PyVal.pyBool true)).truthy then
    ⟨false, "Audit trail required but disabled"⟩
  else if command.safety_constraints.contains "rollback_capability"
      && !(getParam parameters "rollback_enabled" (PyVal.pyBool true)).truthy then
    ⟨false, "Rollback capability required but disabled"⟩
  else
    ⟨true, "All safety constraints satisfied"⟩

/-- Result dict of validate_compliance (the details entry is dropped:
no claim inspects it). -/
structure ComplianceResult where
  status : String
  reason : String
deriving DecidableEq

/-- validate_compliance: awaits the external compliance manager FIRST,
then runs the safety check; a safety rejection takes precedence over
the external verdict; an exception from the external call is caught
and converted to status error (and then the safety check never runs).
Returns the result together with the trace of the two checks. -/
def validate_compliance (env : Env) (command : BotCommand) (parameters : Params) :
    ComplianceResult × List Event :=
  match env.compliance command.compliance_requirements parameters with
  | .raised msg =>
      (⟨"error", "Compliance validation failed: " ++ msg⟩, [Event.complianceCall])
  | .ok approved reason? =>
      let safety_result := validate_safety_constraints command parameters
      if safety_result.approved = false then
        (⟨"rejected", "Safety constraint violation: " ++ safety_result.reason⟩,
         [Event.complianceCall, Event.safetyCheck])
      else
        (⟨if approved then "approved" else "rejected",
          reason?.getD "Compliance validation passed"⟩,
         [Event.complianceCall, Event.safetyCheck])

/-- The inner-try handler dispatch: BotCategory(category) lookup, then
the bot_categories map, then the handler call. The two lookup failures
are the ValueError raises of the source; handlerCall is traced only
when a handler is actually invoked. -/
def handlerPhase (env : Env) (category command_id : String) (parameters : Params)
    (execution_context : Option Params) : HandlerOutcome × List Event :=
  match BotCategory.fromString category with
  | none => (.raised ("is not a valid BotCategory: " ++ category), [])
  | some bc =>
      match env.handlers bc with
      | none => (.raised ("No handler available for category: " ++ category), [])
      | some h => (h command_id parameters execution_context, [Event.handlerCall])

/-- dict update of active_executions at an execution id. -/
def storeUpdate (s : CommanderState) (i : Nat) (e : CommandExecution) : CommanderState :=
  { s with active_executions := replaceAssoc s.active_executions i e }

/-- The freshly created pending CommandExecution. -/
def initialExecution (execution_id : Nat) (command : BotCommand) (parameters : Params)
    (start_time : Nat) : CommandExecution :=
  { execution_id := execution_id
    command := command
    parameters := parameters
    status := "pending"
    start_time := start_time
    end_time := none
    result := none
    error := none
    compliance_status := "pending"
    performance_metrics := none }

/-- The running branch of execute_command: set status running, run the
inner try (handler dispatch), then the finally block (end_time,
performance_metrics, metrics and history notifications, whose raises
escape through the outer except, which re-raises). -/
def runHandlerPhase (env : Env) (s : CommanderState) (execution_id : Nat)
    (category command_id : String) (parameters : Params)
    (execution_context : Option Params) (execution : CommandExecution)
    (events : List Event) : ExecOutcome :=
  let execution := { execution with status := "running" }
  let s := storeUpdate s execution_id execution
  let hpair := handlerPhase env category command_id parameters execution_context
  let execution :=
    match hpair.1 with
    | .ok v => { execution with result := some v, status := "completed" }
    | .raised m => { execution with status := "failed", error := some m }
  let events := events ++ [Event.statusSet "running"] ++ hpair.2 ++ [Event.statusSet execution.status]
  let end_time := s.clock
  let s := { s with clock := s.clock + 1 }
  let execution := { execution with
    end_time := some end_time
    performance_metrics := some
      { execution_time := end_time - execution.start_time
        memory_usage := env.memory_usage
        cpu_usage := env.cpu_usage } }
  let s := storeUpdate s execution_id execution
  let events := events ++ [Event.metricsCall]
  match env.metricsRaise with
  | some m => ⟨Except.error (ExecError.dependencyFailure m), s, events⟩
  | none =>
      let events := events ++ [Event.historyCall]
      match env.historyRaise with
      | some m => ⟨Except.error (ExecError.dependencyFailure m), s, events⟩
      | none => ⟨Except.ok execution, s, events⟩

/-- execute_command after a successful registry lookup: create and
store the pending execution, validate compliance, and either fail the
execution early (non-approved) or enter the handler phase. -/
def runValidated (env : Env) (s : CommanderState) (execution_id : Nat)
    (category command_id : String) (parameters : Params)
    (execution_context : Option Params) (command : BotCommand) : ExecOutcome :=
  let start_time := s.clock
  let s := { s with clock := s.clock + 1 }
  let execution := initialExecution execution_id command parameters start_time
  let s := { s with active_executions := (execution_id, execution) :: s.active_executions }
  let cpair := validate_compliance env command parameters
  let execution := { execution with compliance_status := cpair.1.status }
  let events := Event.statusSet "pending" :: cpair.2
  if cpair.1.status ≠ "approved" then
    let end_time := s.clock
    let s := { s with clock := s.clock + 1 }
    let execution := { execution with
      status := "failed"
      error := some ("Compliance validation failed: " ++ cpair.1.reason)
      end_time := some end_time }
    ⟨Except.ok execution, storeUpdate s execution_id execution,
     events ++ [Event.statusSet "failed"]⟩
  else
    runHandlerPhase env s execution_id category command_id parameters
      execution_context execution events

/-- execute_command: fresh execution id, registry lookup (ValueError to
the caller when absent, before any Execution is created), then the
validated pipeline. -/
def execute_command (env : Env) (s : CommanderState) (category command_id : String)
    (parameters : Params) (execution_context : Option Params) : ExecOutcome :=
  let execution_id := s.nextId
  let s := { s with nextId := s.nextId + 1 }
  let command_key := category ++ ":" ++ command_id
  match lookupAssoc s.command_registry command_key with
  | none => ⟨Except.error (ExecError.commandNotFound command_key), s, []⟩
  | some command =>
      runValidated env s execution_id category command_id parameters
        execution_context command

/-- get_execution_status: store lookup by id. -/
def get_execution_status (s : CommanderState) (execution_id : Nat) :
    Option CommandExecution :=
  lookupAssoc s.active_executions execution_id

/-- get_active_executions: all stored executions. -/
def get_active_executions (s : CommanderState) : List CommandExecution :=
  s.active_executions.map (fun e => e.2)

/-- shutdown: mark every running execution cancelled with end_time
stamped, then clear active_executions. The first component is the list
of records after the marking pass (the objects a caller may still
hold); the second is the post state with the cleared store. -/
def shutdown (s : CommanderState) : List (Nat × CommandExecution) × CommanderState :=
  let marked := s.active_executions.map (fun e =>
    if e.2.status = "running" then
      (e.1, { e.2 with status := "cancelled", end_time := some s.clock })
    else
      e)
  (marked, { s with active_executions := [], clock := s.clock + 1 })

/-- The state of a freshly constructed BotCommander. -/
def initialState : CommanderState :=
  { command_registry := register_bot_commands
    active_executions := []
    clock := 0
    nextId := 0 }

/-- A successful association lookup finds a stored pair. -/
theorem lookupAssoc_mem {κ α : Type} [DecidableEq κ] (l : List (κ × α)) (k : κ) (v : α)
    (h : lookupAssoc l k = some v) : (k, v) ∈ l := by
  induction l with
  | nil => simp [lookupAssoc] at h
  | cons hd tl ih =>
      obtain ⟨k0, v0⟩ := hd
      rw [lookupAssoc] at h
      split at h
      · rename_i heq
        cases h
        cases heq
        exact List.mem_cons_self _ _
      · exact List.mem_cons_of_mem _ (ih h)

/-- The trace of validate_compliance is the compliance call alone (the
external validator raised) or the compliance call followed by the
safety check. -/
theorem validate_compliance_events (env : Env) (c : BotCommand) (p : Params) :
    (validate_compliance env c p).2 = [Event.complianceCall]
    ∨ (validate_compliance env c p).2 = [Event.complianceCall, Event.safetyCheck] := by
  unfold validate_compliance
  cases env.compliance c.compliance_requirements p with
  | raised m => left; rfl
  | ok a r =>
      right
      dsimp only
      split <;> rfl

/-- Environment in which every collaborator behaves: the compliance
manager approves everything, every category has a handler returning a
value, and the recorders succeed. -/
def envOk : Env :=
  { compliance := fun _ _ => .ok true none
    handlers := fun _ => some (fun _ _ _ => .ok (.pyStr "done"))
    metricsRaise := none
    historyRaise := none
    memory_usage := 5
    cpu_usage := 7 }

/-- Environment whose compliance manager rejects with a reason. -/
def envReject : Env :=
  { envOk with compliance := fun _ _ => .ok false (some "policy denied") }

/-- Environment whose category handlers always raise. -/
def envHandlerBoom : Env :=
  { envOk with handlers := fun _ => some (fun _ _ _ => .raised "boom") }

/-- Environment whose metrics collector raises. -/
def envMetricsDown : Env :=
  { envOk with metricsRaise := some "metrics down" }

/-- Parameters that satisfy every safety constraint. -/
def approvedParams : Params := [("human_approval", PyVal.pyBool true)]

/-- C6: calling execute_command with an unregistered
(category, command_id) pair fails immediately with the
command-not-found error surfaced to the caller, inserts nothing into
the execution store, and performs no collaborator call. -/
theorem C6_unregistered_command (env : Env) (s : CommanderState)
    (category command_id : String) (p : Params) (ctx : Option Params)
    (h : lookupAssoc s.command_registry (category ++ ":" ++ command_id) = none) :
    (execute_command env s category command_id p ctx).ret =
      Except.error (ExecError.commandNotFound (category ++ ":" ++ command_id))
    ∧ (execute_command env s category command_id p ctx).state.active_executions =
        s.active_executions
    ∧ (execute_command env s category command_id p ctx).events = [] := by
  refine ⟨?_, ?_, ?_⟩ <;> simp [execute_command, h]

/-- C6 witness: the spec scenario execute_command on chatbots with an
unknown command id, on the freshly constructed commander state. -/
theorem C6_witness :
    (execute_command envOk initialState "chatbots" "nonexistent" [] none).ret =
      Except.error (ExecError.commandNotFound ("chatbots" ++ ":" ++ "nonexistent"))
    ∧ (execute_command envOk initialState "chatbots" "nonexistent" [] none).state.active_executions =
        initialState.active_executions
    ∧ (execute_command envOk initialState "chatbots" "nonexistent" [] none).events = [] :=
  C6_unregistered_command envOk initialState "chatbots" "nonexistent" [] none (by decide)

/-- The registered chatbots empathy_engine command. -/
def empathy_command : BotCommand :=
  mkCommand .chatbots
    ⟨"empathy_engine", "Empathy Engine", "Detects frustration, escalates to human",
     ["user_input", "context"], ["PII_protection", "medical_advice"], 30⟩

/-- C7: the safety validator is a total pure function (it is a plain
Lean function of command and parameters); its checks run in the fixed
order human_oversight (human_approval, no default), audit_trail
(audit_enabled, default true), rollback_capability (rollback_enabled,
default true); the first failing check alone determines the reported
reason; and it approves exactly when no check fails. -/
theorem C7_safety_validator_order (c : BotCommand) (p : Params) :
    (c.safety_constraints.contains "human_oversight" = true →
      (getParam p "human_approval" PyVal.pyNone).truthy = false →
      validate_safety_constraints c p =
        ⟨false, "Human oversight required but not provided"⟩)
    ∧ ((c.safety_constraints.contains "human_oversight" = true →
          (getParam p "human_approval" PyVal.pyNone).truthy = true) →
        c.safety_constraints.contains "audit_trail" = true →
        (getParam p "audit_enabled" (PyVal.pyBool true)).truthy = false →
        validate_safety_constraints c p =
          ⟨false, "Audit trail required but disabled"⟩)
    ∧ ((c.safety_constraints.contains "human_oversight" = true →
          (getParam p "human_approval" PyVal.pyNone).truthy = true) →
        (c.safety_constraints.contains "audit_trail" = true →
          (getParam p "audit_enabled" (PyVal.pyBool true)).truthy = true) →
        c.safety_constraints.contains "rollback_capability" = true →
        (getParam p "rollback_enabled" (PyVal.pyBool true)).truthy = false →
        validate_safety_constraints c p =
          ⟨false, "Rollback capability required but disabled"⟩)
    ∧ ((validate_safety_constraints c p).approved = true ↔
        ((c.safety_constraints.contains "human_oversight" = true →
            (getParam p "human_approval" PyVal.pyNone).truthy = true)
         ∧ (c.safety_constraints.contains "audit_trail" = true →
            (getParam p "audit_enabled" (PyVal.pyBool true)).truthy = true)
         ∧ (c.safety_constraints.contains "rollback_capability" = true →
            (getParam p "rollback_enabled" (PyVal.pyBool true)).truthy = true))) := by
  cases h1 : c.safety_constraints.contains "human_oversight" <;>
  cases h2 : (getParam p "human_approval" PyVal.pyNone).truthy <;>
  cases h3 : c.safety_constraints.contains "audit_trail" <;>
  cases h4 : (getParam p "audit_enabled" (PyVal.pyBool true)).truthy <;>
  cases h5 : c.safety_constraints.contains "rollback_capability" <;>
  cases h6 : (getParam p "rollback_enabled" (PyVal.pyBool true)).truthy <;>
  simp_all [validate_safety_constraints]

/-- C7 witness: on the registered empathy_engine command with empty
parameters, the first check fails and its reason is reported. -/
theorem C7_witness :
    validate_safety_constraints empathy_command [] =
      ⟨false, "Human oversight required but not provided"⟩ :=
  (C7_safety_validator_order empathy_command []).1 (by decide) (by decide)

/-- Registry hit: execute_command reduces to the validated pipeline on
the found command. -/
theorem execute_found (env : Env) (s : CommanderState) (category command_id : String)
    (p : Params) (ctx : Option Params) (cmd : BotCommand)
    (h : lookupAssoc s.command_registry (category ++ ":" ++ command_id) = some cmd) :
    execute_command env s category command_id p ctx =
      runValidated env { s with nextId := s.nextId + 1 } s.nextId category command_id p ctx cmd := by
  simp [execute_command, h]

/-- The execution record produced by the compliance-failure early
return: failed, with the rejection reason in error, end_time stamped
one tick after start_time, and performance_metrics left empty. -/
def rejectExec (eid : Nat) (cmd : BotCommand) (p : Params) (t : Nat) (st rs : String) :
    CommandExecution :=
  { execution_id := eid
    command := cmd
    parameters := p
    status := "failed"
    start_time := t
    end_time := some (t + 1)
    result := none
    error := some ("Compliance validation failed: " ++ rs)
    compliance_status := st
    performance_metrics := none }

/-- The compliance-failure branch of the validated pipeline, as an
explicit outcome. -/
theorem runValidated_reject (env : Env) (s : CommanderState) (eid : Nat)
    (category command_id : String) (p : Params) (ctx : Option Params) (cmd : BotCommand)
    (st rs : String) (ce : List Event)
    (hvc : validate_compliance env cmd p = (⟨st, rs⟩, ce)) (hst : ¬ st = "approved") :
    runValidated env s eid category command_id p ctx cmd =
      ⟨Except.ok (rejectExec eid cmd p s.clock st rs),
       { s with
          clock := s.clock + 2
          active_executions := (eid, rejectExec eid cmd p s.clock st rs) :: s.active_executions },
       Event.statusSet "pending" :: ce ++ [Event.statusSet "failed"]⟩ := by
  simp [runValidated, hvc, hst, initialExecution, storeUpdate, replaceAssoc, rejectExec]

/-- validate_compliance when the external validator raises. -/
theorem validate_compliance_raised (env : Env) (c : BotCommand) (p : Params) (m : String)
    (hc : env.compliance c.compliance_requirements p = .raised m) :
    validate_compliance env c p =
      (⟨"error", "Compliance validation failed: " ++ m⟩, [Event.complianceCall]) := by
  simp [validate_compliance, hc]

/-- validate_compliance when the external validator returns and the
safety check passes: the external verdict decides. -/
theorem validate_compliance_ok (env : Env) (c : BotCommand) (p : Params) (a : Bool)
    (r : Option String) (hc : env.compliance c.compliance_requirements p = .ok a r)
    (hs : (validate_safety_constraints c p).approved = true) :
    validate_compliance env c p =
      (⟨if a then "approved" else "rejected", r.getD "Compliance validation passed"⟩,
       [Event.complianceCall, Event.safetyCheck]) := by
  simp [validate_compliance, hc, hs]

/-- validate_compliance when the external validator returns and the
safety check fails: the safety rejection takes precedence. -/
theorem validate_compliance_safety_reject (env : Env) (c : BotCommand) (p : Params) (a : Bool)
    (r : Option String) (hc : env.compliance c.compliance_requirements p = .ok a r)
    (hs : (validate_safety_constraints c p).approved = false) :
    validate_compliance env c p =
      (⟨"rejected", "Safety constraint violation: " ++ (validate_safety_constraints c p).reason⟩,
       [Event.complianceCall, Event.safetyCheck]) := by
  simp [validate_compliance, hc, hs]

/-- C2: whenever the compliance validation result is not approved,
execute_command returns a failed execution carrying the rejection
reason in its error field and the category handler is never invoked. -/
theorem C2_rejection_blocks_handler (env : Env) (s : CommanderState)
    (category command_id : String) (p : Params) (ctx : Option Params) (cmd : BotCommand)
    (st rs : String) (ce : List Event)
    (hreg : lookupAssoc s.command_registry (category ++ ":" ++ command_id) = some cmd)
    (hvc : validate_compliance env cmd p = (⟨st, rs⟩, ce))
    (hst : ¬ st = "approved") :
    ∃ e, (execute_command env s category command_id p ctx).ret = Except.ok e
      ∧ e.status = "failed"
      ∧ e.compliance_status = st
      ∧ e.error = some ("Compliance validation failed: " ++ rs)
      ∧ Event.handlerCall ∉ (execute_command env s category command_id p ctx).events := by
  rw [execute_found env s category command_id p ctx cmd hreg,
      runValidated_reject env _ s.nextId category command_id p ctx cmd st rs ce hvc hst]
  refine ⟨_, rfl, rfl, rfl, rfl, ?_⟩
  have h := validate_compliance_events env cmd p
  rw [hvc] at h
  rcases h with h | h <;> simp at h <;> simp [h]

/-- C2 witness: the compliance manager of envReject rejects, so the
empathy_engine invocation fails without reaching any handler. -/
theorem C2_witness :
    ∃ e, (execute_command envReject initialState "chatbots" "empathy_engine"
            approvedParams none).ret = Except.ok e
      ∧ e.status = "failed"
      ∧ e.compliance_status = "rejected"
      ∧ e.error = some ("Compliance validation failed: " ++ "policy denied")
      ∧ Event.handlerCall ∉ (execute_command envReject initialState "chatbots" "empathy_engine"
            approvedParams none).events :=
  C2_rejection_blocks_handler envReject initialState "chatbots" "empathy_engine"
    approvedParams none empathy_command "rejected" "policy denied"
    [Event.complianceCall, Event.safetyCheck] (by decide) (by decide) (by decide)

/-- The approved branch of the validated pipeline hands over to the
handler phase with the compliance status set. -/
theorem runValidated_approved (env : Env) (s : CommanderState) (eid : Nat)
    (category command_id : String) (p : Params) (ctx : Option Params) (cmd : BotCommand)
    (rs : String) (ce : List Event)
    (hvc : validate_compliance env cmd p = (⟨"approved", rs⟩, ce)) :
    runValidated env s eid category command_id p ctx cmd =
      runHandlerPhase env
        { s with
          clock := s.clock + 1
          active_executions := (eid, initialExecution eid cmd p s.clock) :: s.active_executions }
        eid category command_id p ctx
        { initialExecution eid cmd p s.clock with compliance_status := "approved" }
        (Event.statusSet "pending" :: ce) := by
  simp [runValidated, hvc]

/-- The terminal record after the handler phase, as a function of the
handler outcome: completed with result, or failed with error, in both
cases with end_time stamped and performance_metrics populated. -/
def handlerFinalExec (ex : CommandExecution) (ho : HandlerOutcome)
    (endT memu cpuu : Nat) : CommandExecution :=
  match ho with
  | .ok v =>
      { ex with
        status := "completed"
        result := some v
        end_time := some endT
        performance_metrics := some ⟨endT - ex.start_time, memu, cpuu⟩ }
  | .raised mm =>
      { ex with
        status := "failed"
        error := some mm
        end_time := some endT
        performance_metrics := some ⟨endT - ex.start_time, memu, cpuu⟩ }

/-- Full characterization of the handler phase: the stored record is
determined by the handler outcome before the recorders run, and a
raising recorder turns the return into an escaped exception without
touching the stored record. -/
theorem runHandlerPhase_eq (env : Env) (s : CommanderState) (eid : Nat)
    (category command_id : String) (p : Params) (ctx : Option Params)
    (ex : CommandExecution) (evs : List Event) :
    runHandlerPhase env s eid category command_id p ctx ex evs =
      (let hp := handlerPhase env category command_id p ctx
       let exF := handlerFinalExec ex hp.1 s.clock env.memory_usage env.cpu_usage
       let sF := storeUpdate
         { (storeUpdate s eid { ex with status := "running" }) with clock := s.clock + 1 } eid exF
       let evF := evs ++ [Event.statusSet "running"] ++ hp.2
         ++ [Event.statusSet (match hp.1 with | .ok _ => "completed" | .raised _ => "failed")]
         ++ [Event.metricsCall]
       match env.metricsRaise with
       | some mm => ⟨Except.error (ExecError.dependencyFailure mm), sF, evF⟩
       | none =>
         match env.historyRaise with
         | some mm => ⟨Except.error (ExecError.dependencyFailure mm), sF,
             evF ++ [Event.historyCall]⟩
         | none => ⟨Except.ok exF, sF, evF ++ [Event.historyCall]⟩) := by
  rcases hhp : handlerPhase env category command_id p ctx with ⟨ho, he⟩
  cases ho <;> cases hm : env.metricsRaise <;> cases hh : env.historyRaise <;>
    simp [runHandlerPhase, handlerFinalExec, hhp, hm, hh, storeUpdate]

/-- C3: when a registered command passes compliance validation and the
handler phase raises (a handler exception or a missing handler), the
exception is captured: execute_command returns a failed execution
whose error is the raised message and whose compliance_status is
approved, provided the recorders themselves return normally. -/
theorem C3_handler_exception_captured (env : Env) (s : CommanderState)
    (category command_id : String) (p : Params) (ctx : Option Params) (cmd : BotCommand)
    (r : Option String) (m : String)
    (hreg : lookupAssoc s.command_registry (category ++ ":" ++ command_id) = some cmd)
    (hc : env.compliance cmd.compliance_requirements p = .ok true r)
    (hs : (validate_safety_constraints cmd p).approved = true)
    (hh : (handlerPhase env category command_id p ctx).1 = HandlerOutcome.raised m)
    (hm : env.metricsRaise = none) (hy : env.historyRaise = none) :
    ∃ e, (execute_command env s category command_id p ctx).ret = Except.ok e
      ∧ e.status = "failed"
      ∧ e.error = some m
      ∧ e.compliance_status = "approved" := by
  have hvc : validate_compliance env cmd p =
      (⟨"approved", r.getD "Compliance validation passed"⟩,
       [Event.complianceCall, Event.safetyCheck]) := by
    simpa using validate_compliance_ok env cmd p true r hc hs
  rw [execute_found env s category command_id p ctx cmd hreg,
      runValidated_approved env _ s.nextId category command_id p ctx cmd _ _ hvc,
      runHandlerPhase_eq]
  simp [hh, hm, hy, handlerFinalExec, initialExecution]

/-- C3 witness: the spec scenario, a raising handler for the trading
risk_warden command with parameters that pass safety and compliance. -/
theorem C3_witness :
    ∃ e, (execute_command envHandlerBoom initialState "trading_bots" "risk_warden"
            approvedParams none).ret = Except.ok e
      ∧ e.status = "failed"
      ∧ e.error = some "boom"
      ∧ e.compliance_status = "approved" :=
  C3_handler_exception_captured envHandlerBoom initialState "trading_bots" "risk_warden"
    approvedParams none (mkCommand .trading_bots
      ⟨"risk_warden", "Risk Warden", "Auto-sell on drawdown, stablecoin protection",
       ["portfolio", "risk_threshold"], ["financial_regulation"], 60⟩)
    none "boom" (by decide) (by decide) (by decide) (by decide) (by decide) (by decide)

/-- C1 counterexample: with empty parameters the safety check rejects
the registered empathy_engine command, yet the external compliance
validator is called during that execution, and the trace shows it is
called before the safety check; the claim that the validator is never
called when safety rejects is false at this input. -/
theorem C1_counterexample :
    (validate_safety_constraints empathy_command []).approved = false
    ∧ (execute_command envOk initialState "chatbots" "empathy_engine" [] none).events =
      [Event.statusSet "pending", Event.complianceCall, Event.safetyCheck,
       Event.statusSet "failed"]
    ∧ Event.complianceCall ∈
      (execute_command envOk initialState "chatbots" "empathy_engine" [] none).events := by
  refine ⟨by decide, by decide, by decide⟩

/-- C1 amended: on every execute_command call on a registered command,
the external compliance validator is invoked first, directly after the
execution record is created, and every safety check in the trace comes
strictly after that compliance call. -/
theorem C1_safety_after_compliance (env : Env) (s : CommanderState)
    (category command_id : String) (p : Params) (ctx : Option Params) (cmd : BotCommand)
    (hreg : lookupAssoc s.command_registry (category ++ ":" ++ command_id) = some cmd) :
    (∃ rest, (execute_command env s category command_id p ctx).events =
        Event.statusSet "pending" :: Event.complianceCall :: rest)
    ∧ (∀ pre post, (execute_command env s category command_id p ctx).events =
        pre ++ Event.safetyCheck :: post → Event.complianceCall ∈ pre) := by
  have hshape : ∃ rest, (execute_command env s category command_id p ctx).events =
      Event.statusSet "pending" :: Event.complianceCall :: rest := by
    rw [execute_found env s category command_id p ctx cmd hreg]
    rcases hvc : validate_compliance env cmd p with ⟨⟨st, rs⟩, ce⟩
    have hce := validate_compliance_events env cmd p
    rw [hvc] at hce
    simp at hce
    by_cases hst : st = "approved"
    · subst hst
      rw [runValidated_approved env _ s.nextId category command_id p ctx cmd _ _ hvc,
          runHandlerPhase_eq]
      rcases hce with h | h <;> subst h <;>
        cases env.metricsRaise <;> cases env.historyRaise <;> simp
    · rw [runValidated_reject env _ s.nextId category command_id p ctx cmd st rs ce hvc hst]
      rcases hce with h | h <;> subst h <;> exact ⟨_, rfl⟩
  obtain ⟨rest, hrest⟩ := hshape
  refine ⟨⟨rest, hrest⟩, ?_⟩
  intro pre post heq
  rw [hrest] at heq
  cases pre with
  | nil => simp at heq
  | cons x pre1 =>
    cases pre1 with
    | nil => simp at heq
    | cons y pre2 =>
      simp at heq
      obtain ⟨hx, hy, _⟩ := heq
      simp [hy]

/-- C1 witness: on an approved empathy_engine run the trace starts
with the record creation followed by the compliance call. -/
theorem C1_witness :
    ∃ rest, (execute_command envOk initialState "chatbots" "empathy_engine"
        approvedParams none).events =
      Event.statusSet "pending" :: Event.complianceCall :: rest :=
  (C1_safety_after_compliance envOk initialState "chatbots" "empathy_engine"
    approvedParams none empathy_command (by decide)).1

/-- The record left in the store by the C4 counterexample run. -/
def metricsDownStored : CommandExecution :=
  { execution_id := 0
    command := empathy_command
    parameters := approvedParams
    status := "completed"
    start_time := 0
    end_time := some 1
    result := some (.pyStr "done")
    error := none
    compliance_status := "approved"
    performance_metrics := some ⟨1, 5, 7⟩ }

/-- C4 counterexample: when the metrics collector raises after a
completed handler phase, execute_command raises to the caller instead
of returning the execution record, so the claim that the record is
still returned rather than raising is false at this input; the stored
record does keep its determined completed status. -/
theorem C4_counterexample :
    (execute_command envMetricsDown initialState "chatbots" "empathy_engine"
        approvedParams none).ret =
      Except.error (ExecError.dependencyFailure "metrics down")
    ∧ get_execution_status (execute_command envMetricsDown initialState "chatbots"
        "empathy_engine" approvedParams none).state 0 = some metricsDownStored
    ∧ metricsDownStored.status = "completed" := by
  refine ⟨rfl, by decide, rfl⟩

/-- C4 amended: a failure of the metrics collector or of the history
store after the handler phase does not alter the determined status,
result or error of the stored execution, and its performance metrics
stay populated; but the failure escapes execute_command as an
exception instead of the execution record being returned. -/
theorem C4_recording_failure_preserves_record (env : Env) (s : CommanderState)
    (category command_id : String) (p : Params) (ctx : Option Params) (cmd : BotCommand)
    (r : Option String) (m : String)
    (hreg : lookupAssoc s.command_registry (category ++ ":" ++ command_id) = some cmd)
    (hc : env.compliance cmd.compliance_requirements p = .ok true r)
    (hs : (validate_safety_constraints cmd p).approved = true)
    (hm : env.metricsRaise = some m ∨ (env.metricsRaise = none ∧ env.historyRaise = some m)) :
    (execute_command env s category command_id p ctx).ret =
      Except.error (ExecError.dependencyFailure m)
    ∧ ∃ e, get_execution_status (execute_command env s category command_id p ctx).state
          s.nextId = some e
        ∧ e.compliance_status = "approved"
        ∧ e.performance_metrics.isSome = true
        ∧ e.status = (match (handlerPhase env category command_id p ctx).1 with
            | .ok _ => "completed" | .raised _ => "failed")
        ∧ e.result = (match (handlerPhase env category command_id p ctx).1 with
            | .ok v => some v | .raised _ => none)
        ∧ e.error = (match (handlerPhase env category command_id p ctx).1 with
            | .ok _ => none | .raised mm => some mm) := by
  have hvc : validate_compliance env cmd p =
      (⟨"approved", r.getD "Compliance validation passed"⟩,
       [Event.complianceCall, Event.safetyCheck]) := by
    simpa using validate_compliance_ok env cmd p true r hc hs
  rw [execute_found env s category command_id p ctx cmd hreg,
      runValidated_approved env _ s.nextId category command_id p ctx cmd _ _ hvc,
      runHandlerPhase_eq]
  rcases hh : (handlerPhase env category command_id p ctx).1 with v | mm
  · rcases hm with hm1 | ⟨hm1, hm2⟩
    · simp [hh, hm1, handlerFinalExec, initialExecution, get_execution_status,
        storeUpdate, replaceAssoc, lookupAssoc]
    · simp [hh, hm1, hm2, handlerFinalExec, initialExecution, get_execution_status,
        storeUpdate, replaceAssoc, lookupAssoc]
  · rcases hm with hm1 | ⟨hm1, hm2⟩
    · simp [hh, hm1, handlerFinalExec, initialExecution, get_execution_status,
        storeUpdate, replaceAssoc, lookupAssoc]
    · simp [hh, hm1, hm2, handlerFinalExec, initialExecution, get_execution_status,
        storeUpdate, replaceAssoc, lookupAssoc]

/-- C4 witness: the amended statement evaluated on the raising metrics
collector environment. -/
theorem C4_witness :
    (execute_command envMetricsDown initialState "chatbots" "empathy_engine"
        approvedParams none).ret =
      Except.error (ExecError.dependencyFailure "metrics down")
    ∧ ∃ e, get_execution_status (execute_command envMetricsDown initialState "chatbots"
          "empathy_engine" approvedParams none).state initialState.nextId = some e
        ∧ e.compliance_status = "approved"
        ∧ e.performance_metrics.isSome = true
        ∧ e.status = (match (handlerPhase envMetricsDown "chatbots" "empathy_engine"
            approvedParams none).1 with
            | .ok _ => "completed" | .raised _ => "failed")
        ∧ e.result = (match (handlerPhase envMetricsDown "chatbots" "empathy_engine"
            approvedParams none).1 with
            | .ok v => some v | .raised _ => none)
        ∧ e.error = (match (handlerPhase envMetricsDown "chatbots" "empathy_engine"
            approvedParams none).1 with
            | .ok _ => none | .raised mm => some mm) :=
  C4_recording_failure_preserves_record envMetricsDown initialState "chatbots"
    "empathy_engine" approvedParams none empathy_command none "metrics down"
    (by decide) (by decide) (by decide) (Or.inl (by decide))


/-- The compliance-rejected execution record returned by the C5
counterexample run. -/
def c5RejectedExec : CommandExecution :=
  rejectExec 0 empathy_command [] 0 "rejected"
    "Safety constraint violation: Human oversight required but not provided"

/-- C5 counterexample: an execution that fails compliance validation
is returned in a terminal failed state with its performance_metrics
still empty, so the claim that performance metrics are populated at
the terminal transition including for compliance failures is false at
this input. -/

theorem C5_counterexample :
    (execute_command envOk initialState "chatbots" "empathy_engine" [] none).ret =
      Except.ok c5RejectedExec
    ∧ c5RejectedExec.status = "failed"
    ∧ c5RejectedExec.compliance_status = "rejected"
    ∧ c5RejectedExec.performance_metrics = none := by
  refine ⟨rfl, rfl, rfl, rfl⟩

/-- C5 amended: every execution returned by execute_command has result
present exactly when completed and error present exactly when failed,
but performance_metrics are populated exactly when compliance was
approved; compliance-failed executions return with empty metrics. -/
theorem C5_terminal_record_shape (env : Env) (s : CommanderState)
    (category command_id : String) (p : Params) (ctx : Option Params) (e : CommandExecution)
    (h : (execute_command env s category command_id p ctx).ret = Except.ok e) :
    (e.result.isSome ↔ e.status = "completed")
    ∧ (e.error.isSome ↔ e.status = "failed")
    ∧ (e.performance_metrics.isSome ↔ e.compliance_status = "approved") := by
  cases hreg : lookupAssoc s.command_registry (category ++ ":" ++ command_id) with
  | none => simp [execute_command, hreg] at h
  | some cmd =>
      rw [execute_found env s category command_id p ctx cmd hreg] at h
      rcases hc : env.compliance cmd.compliance_requirements p with ⟨a, r⟩ | ⟨mmsg⟩
      · cases hs : (validate_safety_constraints cmd p).approved with
        | false =>
            have hvc := validate_compliance_safety_reject env cmd p a r hc hs
            rw [runValidated_reject env _ s.nextId category command_id p ctx cmd _ _ _
              hvc (by decide)] at h
            simp at h
            subst h
            simp [rejectExec]
        | true =>
            cases a with
            | false =>
                have hvc : validate_compliance env cmd p =
                    (⟨"rejected", r.getD "Compliance validation passed"⟩,
                     [Event.complianceCall, Event.safetyCheck]) := by
                  simpa using validate_compliance_ok env cmd p false r hc hs
                rw [runValidated_reject env _ s.nextId category command_id p ctx cmd _ _ _
                  hvc (by decide)] at h
                simp at h
                subst h
                simp [rejectExec]
            | true =>
                have hvc : validate_compliance env cmd p =
                    (⟨"approved", r.getD "Compliance validation passed"⟩,
                     [Event.complianceCall, Event.safetyCheck]) := by
                  simpa using validate_compliance_ok env cmd p true r hc hs
                rw [runValidated_approved env _ s.nextId category command_id p ctx cmd _ _ hvc,
                    runHandlerPhase_eq] at h
                rcases hh : (handlerPhase env category command_id p ctx).1 with v | mm <;>
                  cases hm : env.metricsRaise <;> cases hy : env.historyRaise <;>
                    simp [hh, hm, hy, handlerFinalExec, initialExecution] at h <;>
                    simp [← h]
      · have hvc := validate_compliance_raised env cmd p mmsg hc
        rw [runValidated_reject env _ s.nextId category command_id p ctx cmd _ _ _
          hvc (by decide)] at h
        simp at h
        subst h
        simp [rejectExec]

/-- C5 witness: the record shape evaluated on a completed run. -/
theorem C5_witness :
    ∃ e, (execute_command envOk initialState "chatbots" "empathy_engine"
        approvedParams none).ret = Except.ok e
      ∧ (e.result.isSome ↔ e.status = "completed")
      ∧ (e.error.isSome ↔ e.status = "failed")
      ∧ (e.performance_metrics.isSome ↔ e.compliance_status = "approved") := by
  have hx : ∃ e, (execute_command envOk initialState "chatbots" "empathy_engine"
      approvedParams none).ret = Except.ok e := ⟨_, rfl⟩
  obtain ⟨e, he⟩ := hx
  exact ⟨e, he, C5_terminal_record_shape envOk initialState "chatbots" "empathy_engine"
    approvedParams none e he⟩



/-- The sequence of values assigned to execution.status during a call,
read off the ghost trace. -/
def statusTrace (evs : List Event) : List String :=
  evs.filterMap (fun e => match e with | .statusSet st => some st | _ => none)

/-- Terminal statuses of the execution state machine. -/
def isTerminal (st : String) : Bool :=
  st == "completed" || st == "failed" || st == "cancelled"

/-- Order of the linear state machine pending, running, terminal. -/
def statusRank (st : String) : Nat :=
  if st = "pending" then 0 else if st = "running" then 1 else 2

/-- A legal linear lifecycle: starts pending, statuses strictly
advance, and exactly one terminal status occurs, as the last one. -/
def linearOk (l : List String) : Bool :=
  (l.head? == some "pending")
  && ((l.zip l.tail).all (fun q => Nat.blt (statusRank q.1) (statusRank q.2)))
  && ((l.filter (fun st => isTerminal st)).length == 1)
  && ((l.getLast?.map (fun st => isTerminal st)).getD false)

/-- The handler phase traces at most one handler call. -/
theorem handlerPhase_events (env : Env) (category command_id : String) (p : Params)
    (ctx : Option Params) :
    (handlerPhase env category command_id p ctx).2 = []
    ∨ (handlerPhase env category command_id p ctx).2 = [Event.handlerCall] := by
  rcases hb : BotCategory.fromString category with _ | bc
  · left
    simp [handlerPhase, hb]
  · rcases hh : env.handlers bc with _ | hdl
    · left
      simp [handlerPhase, hb, hh]
    · right
      simp [handlerPhase, hb, hh]

/-- C8: on every registered execute_command call, the statuses the
execution goes through form a legal linear lifecycle reaching exactly
one terminal state exactly once, the stored record ends with end_time
one clock tick after start_time, and shutdown never changes a record
whose status is already terminal. -/
theorem C8_lifecycle (env : Env) (s : CommanderState) (category command_id : String)
    (p : Params) (ctx : Option Params) (cmd : BotCommand)
    (hreg : lookupAssoc s.command_registry (category ++ ":" ++ command_id) = some cmd) :
    linearOk (statusTrace (execute_command env s category command_id p ctx).events) = true
    ∧ (∃ e, get_execution_status (execute_command env s category command_id p ctx).state
          s.nextId = some e ∧ e.end_time = some (e.start_time + 1))
    ∧ (∀ (t : CommanderState) (i : Nat) (e : CommandExecution),
        (i, e) ∈ t.active_executions → isTerminal e.status = true →
        (i, e) ∈ (shutdown t).1) := by
  refine ⟨?_, ?_, ?_⟩
  · rw [execute_found env s category command_id p ctx cmd hreg]
    rcases hvc : validate_compliance env cmd p with ⟨⟨st, rs⟩, ce⟩
    have hce := validate_compliance_events env cmd p
    rw [hvc] at hce
    simp at hce
    by_cases hst : st = "approved"
    · subst hst
      rw [runValidated_approved env _ s.nextId category command_id p ctx cmd _ _ hvc,
          runHandlerPhase_eq]
      have hhe := handlerPhase_events env category command_id p ctx
      rcases hce with h | h <;> subst h <;>
        rcases hhe with h2 | h2 <;>
          rcases hh : (handlerPhase env category command_id p ctx).1 with v | mm <;>
            cases hm : env.metricsRaise <;> cases hy : env.historyRaise <;>
              simp [h2, hh, hm, hy, statusTrace, linearOk, statusRank, isTerminal]
    · rw [runValidated_reject env _ s.nextId category command_id p ctx cmd st rs ce hvc hst]
      rcases hce with h | h <;> subst h <;>
        simp [statusTrace, linearOk, statusRank, isTerminal]
  · rw [execute_found env s category command_id p ctx cmd hreg]
    rcases hvc : validate_compliance env cmd p with ⟨⟨st, rs⟩, ce⟩
    by_cases hst : st = "approved"
    · subst hst
      rw [runValidated_approved env _ s.nextId category command_id p ctx cmd _ _ hvc,
          runHandlerPhase_eq]
      rcases hh : (handlerPhase env category command_id p ctx).1 with v | mm <;>
        cases hm : env.metricsRaise <;> cases hy : env.historyRaise <;>
          simp [hh, hm, hy, handlerFinalExec, initialExecution, get_execution_status,
            storeUpdate, replaceAssoc, lookupAssoc]
    · rw [runValidated_reject env _ s.nextId category command_id p ctx cmd st rs ce hvc hst]
      refine ⟨rejectExec s.nextId cmd p s.clock st rs, ?_, rfl⟩
      simp [get_execution_status, lookupAssoc]
  · intro t i e hmem hterm
    have hne : ¬ e.status = "running" := by
      intro hrun
      rw [hrun] at hterm
      simp [isTerminal] at hterm
    have h2 := List.mem_map_of_mem
      (fun q : Nat × CommandExecution =>
        if q.2.status = "running" then
          (q.1, { q.2 with status := "cancelled", end_time := some t.clock })
        else q) hmem
    simp only [hne, if_false] at h2
    simpa [shutdown] using h2


/-- C8 witness: the lifecycle facts evaluated on a completed run. -/
theorem C8_witness :
    linearOk (statusTrace (execute_command envOk initialState "chatbots" "empathy_engine"
      approvedParams none).events) = true
    ∧ (∃ e, get_execution_status (execute_command envOk initialState "chatbots"
          "empathy_engine" approvedParams none).state initialState.nextId = some e
        ∧ e.end_time = some (e.start_time + 1))
    ∧ (∀ (t : CommanderState) (i : Nat) (e : CommandExecution),
        (i, e) ∈ t.active_executions → isTerminal e.status = true →
        (i, e) ∈ (shutdown t).1) :=
  C8_lifecycle envOk initialState "chatbots" "empathy_engine" approvedParams none
    empathy_command (by decide)


/-- A stored execution still marked running, for exercising shutdown. -/
def runningStored : CommandExecution :=
  { execution_id := 0
    command := empathy_command
    parameters := []
    status := "running"
    start_time := 0
    end_time := none
    result := none
    error := none
    compliance_status := "approved"
    performance_metrics := none }

/-- A commander state holding one running execution. -/
def sRun : CommanderState :=
  { command_registry := register_bot_commands
    active_executions := [(0, runningStored)]
    clock := 5
    nextId := 1 }

/-- C9 counterexample: an execution id that is queryable before
shutdown returns none afterwards, because shutdown clears the store;
the claim that get_execution_status then returns the now-terminal
record is false at this input. -/
theorem C9_counterexample :
    get_execution_status sRun 0 = some runningStored
    ∧ get_execution_status (shutdown sRun).2 0 = none := by
  refine ⟨by decide, by decide⟩

/-- C9 amended: shutdown transitions every running execution to
cancelled with end_time stamped (visible in the marked records), no
marked record stays running, and because the store is then cleared,
get_active_executions returns the empty sequence and
get_execution_status returns none for every id afterwards. -/
theorem C9_shutdown_behavior (t : CommanderState) :
    (∀ (i : Nat) (e : CommandExecution), (i, e) ∈ t.active_executions →
        e.status = "running" →
        (i, { e with status := "cancelled", end_time := some t.clock }) ∈ (shutdown t).1)
    ∧ (∀ (i : Nat) (e : CommandExecution), (i, e) ∈ (shutdown t).1 → ¬ e.status = "running")
    ∧ get_active_executions (shutdown t).2 = []
    ∧ (∀ i : Nat, get_execution_status (shutdown t).2 i = none) := by
  refine ⟨?_, ?_, rfl, fun i => rfl⟩
  · intro i e hmem hrun
    have h2 := List.mem_map_of_mem
      (fun q : Nat × CommandExecution =>
        if q.2.status = "running" then
          (q.1, { q.2 with status := "cancelled", end_time := some t.clock })
        else q) hmem
    simp only [hrun, if_pos] at h2
    simpa [shutdown] using h2
  · intro i e hmem
    simp only [shutdown, List.mem_map] at hmem
    rcases hmem with ⟨⟨a, b⟩, hab, hif⟩
    by_cases hb : b.status = "running"
    · rw [if_pos hb] at hif
      cases hif
      simp
    · rw [if_neg hb] at hif
      cases hif
      exact hb

/-- C9 witness: the shutdown facts evaluated on the state with one
running execution. -/
theorem C9_witness :
    ((0 : Nat), { runningStored with status := "cancelled", end_time := some sRun.clock })
      ∈ (shutdown sRun).1
    ∧ get_active_executions (shutdown sRun).2 = []
    ∧ (∀ i : Nat, get_execution_status (shutdown sRun).2 i = none) :=
  ⟨(C9_shutdown_behavior sRun).1 0 runningStored (by decide) rfl,
   (C9_shutdown_behavior sRun).2.2.1,
   (C9_shutdown_behavior sRun).2.2.2⟩

/-- C10: every command in the startup registry carries the three
safety constraints and the identical retry policy of three retries
with backoff factor two; consequently on that registry any
execute_command call whose parameters lack a truthy human_approval is
rejected before dispatch, returns a failed execution and never reaches
a category handler, whenever the compliance validator returns without
raising. -/
theorem C10_registry_uniform_constraints :
    (∀ (k : String) (c : BotCommand), (k, c) ∈ register_bot_commands →
      c.safety_constraints = ["human_oversight", "audit_trail", "rollback_capability"]
      ∧ c.retry_policy = ⟨3, 2⟩)
    ∧ (∀ (env : Env) (s : CommanderState) (category command_id : String) (p : Params)
        (ctx : Option Params) (cmd : BotCommand) (a : Bool) (r : Option String),
        s.command_registry = register_bot_commands →
        lookupAssoc s.command_registry (category ++ ":" ++ command_id) = some cmd →
        (getParam p "human_approval" PyVal.pyNone).truthy = false →
        env.compliance cmd.compliance_requirements p = .ok a r →
        ∃ e, (execute_command env s category command_id p ctx).ret = Except.ok e
          ∧ e.status = "failed"
          ∧ Event.handlerCall ∉ (execute_command env s category command_id p ctx).events) := by
  have hpart1 : ∀ (k : String) (c : BotCommand), (k, c) ∈ register_bot_commands →
      c.safety_constraints = ["human_oversight", "audit_trail", "rollback_capability"]
      ∧ c.retry_policy = ⟨3, 2⟩ := by
    intro k c h
    simp only [register_bot_commands, List.mem_flatten, List.mem_map] at h
    obtain ⟨l, ⟨g, hg, rfl⟩, hmem⟩ := h
    simp only [List.mem_map] at hmem
    obtain ⟨sp, hsp, heq⟩ := hmem
    cases heq
    simp [mkCommand]
  refine ⟨hpart1, ?_⟩
  intro env s category command_id p ctx cmd a r hs0 hreg hp hc
  have hmem := lookupAssoc_mem _ _ _ hreg
  rw [hs0] at hmem
  have hsc := (hpart1 _ _ hmem).1
  have hcontains : (["human_oversight", "audit_trail",
      "rollback_capability"] : List String).contains "human_oversight" = true := by decide
  have hsafety : (validate_safety_constraints cmd p).approved = false := by
    simp [validate_safety_constraints, hsc, hcontains, hp]
  have hvc := validate_compliance_safety_reject env cmd p a r hc hsafety
  rw [execute_found env s category command_id p ctx cmd hreg,
      runValidated_reject env _ s.nextId category command_id p ctx cmd _ _ _ hvc (by decide)]
  refine ⟨_, rfl, rfl, ?_⟩
  simp


/-- C10 witness: an empathy_engine call without human_approval on the
startup registry fails without any handler call. -/
theorem C10_witness :
    ∃ e, (execute_command envOk initialState "chatbots" "empathy_engine" [] none).ret =
        Except.ok e
      ∧ e.status = "failed"
      ∧ Event.handlerCall ∉
          (execute_command envOk initialState "chatbots" "empathy_engine" [] none).events :=
  C10_registry_uniform_constraints.2 envOk initialState "chatbots" "empathy_engine" [] none
    empathy_command true none rfl (by decide) (by decide) (by decide)

end BotCommanderModel
